import Mathlib

/-!
Shallow embedding of the Discourse source-plugin ingestion core
(`src/index.ts` helpers `parseTopics`, `parseTopic`, `parsePosts`,
`callAPI`, `handleMonitor`, `handleSearch`, and the zod schemas
`DiscourseTopicSchema` / `DiscoursePostSchema` of `src/schemas.ts`).

Modelling conventions:
- A raw JSON field is a `RawVal`: absent (`undef`), JSON `null`, present
  but of the wrong type or failing format validation (`invalid`, standing
  for a truthy junk value), or a well-typed value (`val`).
- ISO-8601 datetime strings are modelled by their epoch-millisecond value
  (an `Int`); a `val t` for a datetime field stands for a string that
  passes zod's `.datetime()` check and denotes instant `t`.
- JavaScript `x || d` defaulting is embedded per type: `undefined` and
  `null` are falsy, the number `0` is falsy, the empty string is falsy,
  and a junk (`invalid`) value is treated as truthy.
- The effectful fetch is embedded as an oracle: `callAPI` consumes a
  function from attempt index to that attempt's outcome, and the monitor
  and search handlers consume an oracle from the request they build to
  the JSON payload produced by the fetch layer's success path.  `Date.now()`
  and `new Date().toISOString()` are a single `now : Int` parameter.
-/

namespace Discourse

/-- A raw JSON field value as seen by the helper functions before zod
validation: absent, null, present-but-invalid (wrong type or failing
format validation; treated as a truthy junk value), or a valid value. -/
inductive RawVal (α : Type) where
  | undef
  | null
  | invalid
  | val (a : α)
  deriving DecidableEq

/-- JavaScript `x || d` for a numeric field (`0`, `null`, `undefined` are
falsy; junk values are truthy and pass through). -/
def jsOrInt (x : RawVal Int) (d : Int) : RawVal Int :=
  match x with
  | .undef => .val d
  | .null => .val d
  | .invalid => .invalid
  | .val n => if n = 0 then .val d else .val n

/-- JavaScript `x || d` for an array field (arrays, empty included, are
truthy; junk values pass through). -/
def jsOrList (x : RawVal (List String)) (d : List String) : RawVal (List String) :=
  match x with
  | .undef => .val d
  | .null => .val d
  | .invalid => .invalid
  | .val l => .val l

/-- JavaScript `x || y` for a string field (the empty string is falsy). -/
def jsOrStr (x : RawVal String) (y : RawVal String) : RawVal String :=
  match x with
  | .undef => y
  | .null => y
  | .invalid => .invalid
  | .val s => if s = "" then y else .val s

/-- zod required typed field (`z.number()`, `z.string()`,
`z.string().datetime()`, `z.array(z.string())`): accepts only a valid
value. -/
def reqVal : RawVal α → Option α
  | .val a => some a
  | _ => none

/-- zod `.optional()` field: `undefined` becomes `none`; `null` and junk
are rejected. -/
def optVal : RawVal α → Option (Option α)
  | .undef => some none
  | .val a => some (some a)
  | _ => none

/-- zod `.nullable()` (non-optional) field: `null` becomes `none`;
`undefined` and junk are rejected. -/
def nullableVal : RawVal α → Option (Option α)
  | .null => some none
  | .val a => some (some a)
  | _ => none

/-- A normalized topic (`DiscourseTopicSchema` output). -/
structure DiscourseTopic where
  id : Int
  title : String
  slug : String
  posts_count : Int
  views : Option Int
  like_count : Int
  created_at : Int
  last_posted_at : Option Int
  category_id : Option Int
  tags : List String
  deriving DecidableEq

/-- A normalized post (`DiscoursePostSchema` output). -/
structure DiscoursePost where
  id : Int
  topic_id : Int
  username : String
  cooked : Option String
  created_at : Int
  like_count : Int
  deriving DecidableEq

/-- A raw topic record as read by `parseTopic` / `parseTopics`. -/
structure RawTopic where
  id : RawVal Int
  title : RawVal String
  slug : RawVal String
  posts_count : RawVal Int
  views : RawVal Int
  like_count : RawVal Int
  created_at : RawVal Int
  last_posted_at : RawVal Int
  category_id : RawVal Int
  tags : RawVal (List String)
  deriving DecidableEq

/-- A raw post record as read by `parsePosts`. -/
structure RawPost where
  id : RawVal Int
  topic_id : RawVal Int
  username : RawVal String
  cooked : RawVal String
  blurb : RawVal String
  created_at : RawVal Int
  like_count : RawVal Int
  deriving DecidableEq

/-- `parseTopic`: builds the field record (applying the `|| 0` and `|| []`
defaults) and validates it against `DiscourseTopicSchema`; any field
failure makes the whole record invalid (`none`), mirroring the
`try/catch` around `DiscourseTopicSchema.parse`. -/
def parseTopic (t : RawTopic) : Option DiscourseTopic :=
  match reqVal t.id, reqVal t.title, reqVal t.slug, reqVal t.posts_count,
      optVal t.views, reqVal (jsOrInt t.like_count 0), reqVal t.created_at,
      nullableVal t.last_posted_at, optVal t.category_id,
      reqVal (jsOrList t.tags []) with
  | some i, some ti, some sl, some pc, some vw, some lk, some ca, some lp,
      some ci, some tg =>
    some { id := i, title := ti, slug := sl, posts_count := pc, views := vw,
           like_count := lk, created_at := ca, last_posted_at := lp,
           category_id := ci, tags := tg }
  | _, _, _, _, _, _, _, _, _, _ => none

/-- The per-element body of `parsePosts` (the mapped lambda validating one
raw post against `DiscoursePostSchema`, with `cooked: p.cooked || p.blurb`
and `like_count: p.like_count || 0`). -/
def parsePostElem (p : RawPost) : Option DiscoursePost :=
  match reqVal p.id, reqVal p.topic_id, reqVal p.username,
      optVal (jsOrStr p.cooked p.blurb), reqVal p.created_at,
      reqVal (jsOrInt p.like_count 0) with
  | some i, some ti, some u, some ck, some ca, some lk =>
    some { id := i, topic_id := ti, username := u, cooked := ck,
           created_at := ca, like_count := lk }
  | _, _, _, _, _, _ => none

/-- `parseTopics`: map each element through the schema parse (invalid
elements become `none`), then filter the `none`s out. -/
def parseTopics (data : List RawTopic) : List DiscourseTopic :=
  (data.map parseTopic).filterMap id

/-- `parsePosts`: map each element through the schema parse (invalid
elements become `none`), then filter the `none`s out. -/
def parsePosts (data : List RawPost) : List DiscoursePost :=
  (data.map parsePostElem).filterMap id

/-- The JSON payload shape the handlers read from a fetch result:
`result.topic_list?.topics`, `result.topics`, `result.posts`,
`result.post_stream?.posts` (each `none` when the field, or its parent
object, is absent). -/
structure ApiPayload where
  topic_list_topics : Option (List RawTopic)
  post_stream_posts : Option (List RawPost)
  topics : Option (List RawTopic)
  posts : Option (List RawPost)
  deriving DecidableEq

/-- The neutral empty payload
`{ post_stream: { posts: [] }, topic_list: { topics: [] } }` returned by
`callAPI` for tolerated HTTP-level failures. -/
def emptyPayload : ApiPayload :=
  { topic_list_topics := some [], post_stream_posts := some [],
    topics := none, posts := none }

instance {ε α : Type} [DecidableEq ε] [DecidableEq α] : DecidableEq (Except ε α) :=
  fun x y =>
    match x, y with
    | .ok a, .ok b =>
      if h : a = b then isTrue (by rw [h]) else isFalse (by simp [h])
    | .error e, .error f =>
      if h : e = f then isTrue (by rw [h]) else isFalse (by simp [h])
    | .ok _, .error _ => isFalse (by simp)
    | .error _, .ok _ => isFalse (by simp)

/-- Outcome of one `fetch` attempt inside `callAPI`: either the promise
rejects (connection failure or the `AbortSignal.timeout(timeout)` firing),
or an HTTP response arrives with a status code and, for when the body is
read, the result of `response.json()` (`Except.error` models a JSON
decode failure). -/
inductive AttemptResult where
  | netError
  | httpResponse (status : Nat) (body : Except Unit ApiPayload)
  deriving DecidableEq

/-- Hard failures of `callAPI` (both are `Effect.orDie` defects in the
source: they propagate to the caller instead of being swallowed). -/
inductive CallError where
  | networkError
  | jsonDecodeError
  deriving DecidableEq

/-- Observable outcome of a whole `callAPI` call: how many `fetch`
attempts were made, the backoff sleeps (in milliseconds, in order)
between consecutive attempts, and the final result. -/
structure CallOutcome where
  attempts : Nat
  sleeps : List Nat
  result : Except CallError ApiPayload
  deriving DecidableEq

/-- The body of `callAPI` from a given `retryCount`, with the attempt
outcomes supplied by an oracle indexed by attempt number.  `fuel` is the
number of retries still allowed, i.e. `3 - retryCount`; the source guard
`status === 429 && retryCount < 3` is the `429` test combined with
`fuel > 0`, and an exhausted 429 (`fuel = 0`) falls through to the
`!response.ok` branch exactly as in the source (429 is not ok), yielding
the neutral empty payload.  `response.ok` is `200 ≤ status ≤ 299`. -/
def callAPIFrom (oracle : Nat → AttemptResult) : Nat → Nat → CallOutcome
  | fuel, retryCount =>
    match oracle retryCount with
    | .netError =>
      { attempts := 1, sleeps := [], result := .error .networkError }
    | .httpResponse status body =>
      if status = 429 then
        match fuel with
        | f + 1 =>
          let rest := callAPIFrom oracle f (retryCount + 1)
          { attempts := rest.attempts + 1,
            sleeps := (2 ^ retryCount * 1000) :: rest.sleeps,
            result := rest.result }
        | 0 => { attempts := 1, sleeps := [], result := .ok emptyPayload }
      else if 200 ≤ status ∧ status ≤ 299 then
        match body with
        | .ok payload =>
          { attempts := 1, sleeps := [], result := .ok payload }
        | .error _ =>
          { attempts := 1, sleeps := [], result := .error .jsonDecodeError }
      else
        { attempts := 1, sleeps := [], result := .ok emptyPayload }

/-- `callAPI` starts at `retryCount = 0` with 3 retries allowed. -/
def callAPI (oracle : Nat → AttemptResult) : CallOutcome :=
  callAPIFrom oracle 3 0

/-- Plugin context produced by `initialize`. -/
structure PluginContext where
  baseUrl : String
  timeout : Nat
  batchSize : Nat
  apiKey : Option String
  apiUsername : Option String
  deriving DecidableEq

/-- Monitor phase. -/
inductive Phase where
  | historical
  | realtime
  deriving DecidableEq

/-- Monitor continuation state (`lastChecked` as epoch milliseconds). -/
structure MonitorState where
  phase : Phase
  lastTopicId : Option Nat
  lastChecked : Option Int
  deriving DecidableEq

/-- Monitor input parameters. -/
structure MonitorInput where
  category : Option String
  tags : Option (List String)
  deriving DecidableEq

/-- Monitor step output. -/
structure MonitorOutput where
  items : List DiscourseTopic
  nextState : Option MonitorState
  deriving DecidableEq

/-- The query-parameter map of an outgoing request (after dropping
absent parameters): endpoint path plus the `category`, `page`,
`per_page` and `q` parameters actually appended. -/
structure ApiRequest where
  endpoint : String
  category : Option String
  page : Option Nat
  perPage : Option Nat
  q : Option String
  deriving DecidableEq

/-- `60 * 60 * 1000`. -/
def ONE_HOUR_MS : Int := 60 * 60 * 1000

/-- The default state `handleMonitor` substitutes for a `null` state. -/
def defaultMonitorState : MonitorState :=
  { phase := .historical, lastTopicId := none, lastChecked := none }

/-- `handleMonitor`, with the fetch layer's success path abstracted as an
oracle from the request built by the handler to the returned JSON
payload, and the current time (`Date.now()` / `new Date().toISOString()`)
as `now`.  JavaScript truthiness of `currentState.lastTopicId` (the
number 0 is falsy) is kept in the page computation. -/
def handleMonitor (ctx : PluginContext) (input : MonitorInput)
    (state : Option MonitorState) (api : ApiRequest → ApiPayload)
    (now : Int) : MonitorOutput :=
  let currentState := state.getD defaultMonitorState
  match currentState.phase with
  | .historical =>
    let page : Nat :=
      match currentState.lastTopicId with
      | some n => if n = 0 then 0 else n / ctx.batchSize
      | none => 0
    let result := api { endpoint := "/latest.json", category := input.category,
                        page := some page, perPage := none, q := none }
    let topics := parseTopics (result.topic_list_topics.getD [])
    if topics.length = 0 then
      { items := [],
        nextState := some { phase := .realtime, lastTopicId := none,
                            lastChecked := some now } }
    else
      { items := topics,
        nextState := some { currentState with
          lastTopicId := some (currentState.lastTopicId.getD 0 + topics.length) } }
  | .realtime =>
    let result := api { endpoint := "/latest.json", category := input.category,
                        page := none, perPage := some ctx.batchSize, q := none }
    let allTopics := parseTopics (result.topic_list_topics.getD [])
    let lastChecked :=
      match currentState.lastChecked with
      | some t => t
      | none => now - ONE_HOUR_MS
    let newTopics := allTopics.filter (fun t => lastChecked < t.created_at)
    { items := newTopics,
      nextState := some { phase := .realtime, lastTopicId := none,
                          lastChecked := some now } }

/-- Search filters. -/
structure SearchFilters where
  username : Option String
  minLikes : Option Int
  after : Option String
  deriving DecidableEq

/-- Search input. -/
structure SearchInput where
  query : String
  filters : Option SearchFilters
  deriving DecidableEq

/-- Search continuation state. -/
structure SearchState where
  phase : Phase
  lastTopicId : Option Nat
  deriving DecidableEq

/-- Search step output. -/
structure SearchOutput where
  topics : List DiscourseTopic
  posts : List DiscoursePost
  nextState : Option SearchState
  deriving DecidableEq

/-- The query-string augmentation at the top of `handleSearch`:
`query += \x7b @username\x7d` when the username filter is truthy, then
`query += \x7b after:date\x7d` (date = the ISO timestamp truncated at the
`T` separator) when the after filter is truthy. -/
def buildSearchQuery (input : SearchInput) : String :=
  let q1 :=
    match input.filters with
    | some f =>
      match f.username with
      | some u => if u = "" then input.query else input.query ++ " @" ++ u
      | none => input.query
    | none => input.query
  match input.filters with
  | some f =>
    match f.after with
    | some a => if a = "" then q1 else q1 ++ " after:" ++ (a.splitOn "T").headD ""
    | none => q1
  | none => q1

/-- `handleSearch`, with the fetch layer's success path abstracted as an
oracle from the request built by the handler to the returned JSON
payload. -/
def handleSearch (ctx : PluginContext) (input : SearchInput)
    (state : Option SearchState) (api : ApiRequest → ApiPayload) : SearchOutput :=
  let currentState := state.getD { phase := .historical, lastTopicId := none }
  let query := buildSearchQuery input
  let page : Nat :=
    match currentState.lastTopicId with
    | some n => if n = 0 then 0 else n / 20
    | none => 0
  let result := api { endpoint := "/search.json", category := none,
                      page := some page, perPage := none, q := some query }
  let topics := parseTopics (result.topics.getD [])
  let posts := parsePosts (result.posts.getD [])
  let hasMore := 20 ≤ topics.length
  { topics := topics, posts := posts,
    nextState :=
      if hasMore then
        some { currentState with
          lastTopicId := some (currentState.lastTopicId.getD 0 + topics.length) }
      else none }

/-- Progress count carried by a monitor state (`lastTopicId || 0`; `0`
for a `null` state). -/
def monitorProgress : Option MonitorState → Nat
  | none => 0
  | some st => st.lastTopicId.getD 0

/-- The `lastChecked` field carried by a monitor state (`none` for a
`null` state). -/
def monitorLastChecked : Option MonitorState → Option Int
  | none => none
  | some st => st.lastChecked

/-- Progress count carried by a search state (`lastTopicId || 0`; `0`
for a `null` state). -/
def searchProgress : Option SearchState → Nat
  | none => 0
  | some st => st.lastTopicId.getD 0

/-- The phase carried by a search state (historical for a `null` state). -/
def searchPhase : Option SearchState → Phase
  | none => .historical
  | some st => st.phase

/-- The request `handleMonitor` issues in the historical phase for
progress count `p` and batch size `b`. -/
def monitorHistReq (input : MonitorInput) (p b : Nat) : ApiRequest :=
  { endpoint := "/latest.json", category := input.category,
    page := some (p / b), perPage := none, q := none }

/-- The request `handleMonitor` issues in the realtime phase for batch
size `b`. -/
def monitorRealtimeReq (input : MonitorInput) (b : Nat) : ApiRequest :=
  { endpoint := "/latest.json", category := input.category,
    page := none, perPage := some b, q := none }

/-- The request `handleSearch` issues for progress count `p`. -/
def searchReq (input : SearchInput) (p : Nat) : ApiRequest :=
  { endpoint := "/search.json", category := none,
    page := some (p / 20), perPage := none, q := some (buildSearchQuery input) }

/-- The numeric value of a raw field, `0` when no valid number is
present (used to state hypotheses about raw inputs). -/
def rawIntOr0 : RawVal Int → Int
  | .val n => n
  | _ => 0

/-- A raw topic record with negative `posts_count` and `like_count` that
`DiscourseTopicSchema` (plain `z.number()` fields) accepts. -/
def rawNeg : RawTopic :=
  { id := .val 1, title := .val "t", slug := .val "s",
    posts_count := .val (-1), views := .undef, like_count := .val (-2),
    created_at := .val 0, last_posted_at := .null, category_id := .undef,
    tags := .undef }

/-- The normalized topic `parseTopic` produces from `rawNeg`. -/
def topicNeg : DiscourseTopic :=
  { id := 1, title := "t", slug := "s", posts_count := -1, views := none,
    like_count := -2, created_at := 0, last_posted_at := none,
    category_id := none, tags := [] }

/-- Field correspondence between an accepted raw topic and its
normalization: every field equals the raw value, with missing
`like_count` defaulting to `0` and missing `tags` to `[]`. -/
def TopicFieldSpec (t : RawTopic) (T : DiscourseTopic) : Prop :=
  t.id = .val T.id ∧ t.title = .val T.title ∧ t.slug = .val T.slug ∧
  t.posts_count = .val T.posts_count ∧ t.created_at = .val T.created_at ∧
  (t.views = .undef → T.views = none) ∧
  (∀ v, t.views = .val v → T.views = some v) ∧
  (t.category_id = .undef → T.category_id = none) ∧
  (∀ v, t.category_id = .val v → T.category_id = some v) ∧
  (t.last_posted_at = .null → T.last_posted_at = none) ∧
  (∀ v, t.last_posted_at = .val v → T.last_posted_at = some v) ∧
  (t.like_count = .undef → T.like_count = 0) ∧
  (∀ n, t.like_count = .val n → T.like_count = n) ∧
  (t.tags = .undef → T.tags = []) ∧
  (∀ l, t.tags = .val l → T.tags = l)

/-- For an accepted raw post whose `cooked` field is absent, the
normalized content comes from the `blurb` field. -/
def PostCookedSpec (p : RawPost) (P : DiscoursePost) : Prop :=
  (∀ s, p.blurb = .val s → P.cooked = some s) ∧
  (p.blurb = .undef → P.cooked = none)

/-- The monitor historical step property at progress count
`monitorProgress state`: only the page-`floor(p/b)` request is consulted;
a nonempty normalized batch is emitted as-is with the progress advanced
by its length and the phase kept historical; an empty batch emits nothing
and transitions to realtime with `lastChecked` set to the current time. -/
def MonitorHistSpec (ctx : PluginContext) (input : MonitorInput)
    (state : Option MonitorState) (api : ApiRequest → ApiPayload) (now : Int)
    (ts : List DiscourseTopic) : Prop :=
  handleMonitor ctx input state api now
      = handleMonitor ctx input state
          (fun _ => api (monitorHistReq input (monitorProgress state) ctx.batchSize)) now ∧
  (ts ≠ [] →
    handleMonitor ctx input state api now
      = { items := ts,
          nextState := some ⟨Phase.historical,
            some (monitorProgress state + ts.length), monitorLastChecked state⟩ }) ∧
  (ts = [] →
    handleMonitor ctx input state api now
      = { items := [], nextState := some ⟨Phase.realtime, none, some now⟩ })

/-- The monitor realtime step property: an item is emitted iff it is in
the normalized batch and its creation timestamp is strictly after the
effective watermark (`lastChecked`, else now minus one hour); the next
state is always realtime with `lastChecked = now`; and the monitor never
returns a null next state from any state. -/
def MonitorRTSpec (ctx : PluginContext) (input : MonitorInput)
    (st : MonitorState) (api : ApiRequest → ApiPayload) (now : Int)
    (all : List DiscourseTopic) : Prop :=
  (∀ t, t ∈ (handleMonitor ctx input (some st) api now).items ↔
      t ∈ all ∧ st.lastChecked.getD (now - ONE_HOUR_MS) < t.created_at) ∧
  (handleMonitor ctx input (some st) api now).nextState
      = some ⟨Phase.realtime, none, some now⟩ ∧
  (∀ s : Option MonitorState,
      ((handleMonitor ctx input s api now).nextState).isSome = true)

/-- The search pagination property at progress count
`searchProgress state`: only the page-`floor(p/20)` request is consulted;
the result is independent of the context batch size; the topics output is
the normalized batch; the next state is null iff fewer than 20 topics
were returned, and otherwise advances the progress count by the batch
length. -/
def SearchPageSpec (ctx : PluginContext) (input : SearchInput)
    (state : Option SearchState) (api : ApiRequest → ApiPayload)
    (ts : List DiscourseTopic) : Prop :=
  handleSearch ctx input state api
      = handleSearch ctx input state (fun _ => api (searchReq input (searchProgress state))) ∧
  (∀ b, handleSearch { ctx with batchSize := b } input state api
      = handleSearch ctx input state api) ∧
  (handleSearch ctx input state api).topics = ts ∧
  ((handleSearch ctx input state api).nextState = none ↔ ts.length < 20) ∧
  (20 ≤ ts.length →
    (handleSearch ctx input state api).nextState
      = some ⟨searchPhase state, some (searchProgress state + ts.length)⟩)

/-! ### Concrete fixtures used by the witnesses -/

/-- A structurally valid raw topic exercising the defaults. -/
def rawT7 : RawTopic :=
  ⟨.val 1, .val "a", .val "b", .val 2, .undef, .undef, .val 100, .null, .undef, .undef⟩

/-- The normalization of `rawT7`. -/
def topicT7 : DiscourseTopic := ⟨1, "a", "b", 2, none, 0, 100, none, none, []⟩

/-- A structurally valid raw post with `cooked` absent and a `blurb`. -/
def rawP7 : RawPost := ⟨.val 5, .val 1, .val "u", .undef, .val "pre", .val 100, .undef⟩

/-- The normalization of `rawP7`. -/
def postP7 : DiscoursePost := ⟨5, 1, "u", some "pre", 100, 0⟩

/-- A concrete plugin context with batch size 20. -/
def ctxW : PluginContext := ⟨"https://forum.example", 10000, 20, none, none⟩

/-- A concrete monitor input with no filters. -/
def inputW : MonitorInput := ⟨none, none⟩

/-- A constant oracle returning one raw topic under `topic_list.topics`. -/
def apiLatestW : ApiRequest → ApiPayload := fun _ => ⟨some [rawT7], none, none, none⟩

/-- A concrete realtime-phase monitor state. -/
def stRTW : MonitorState := ⟨Phase.realtime, none, some 100⟩

/-- A constant oracle returning one raw topic under `topics` for search. -/
def apiSearchW : ApiRequest → ApiPayload := fun _ => ⟨none, none, some [rawT7], some []⟩

/-- An always-rate-limited attempt oracle. -/
def oracle429W : Nat → AttemptResult := fun _ => .httpResponse 429 (Except.error ())

/-- An attempt oracle whose first response is HTTP 500. -/
def oracle500W : Nat → AttemptResult := fun _ => .httpResponse 500 (Except.error ())

/-- An attempt oracle whose first attempt fails at the network level. -/
def oracleNetW : Nat → AttemptResult := fun _ => .netError

/-- An attempt oracle returning HTTP 200 with an undecodable body. -/
def oracleBadW : Nat → AttemptResult := fun _ => .httpResponse 200 (Except.error ())

/-- Search filters with `minLikes` set. -/
def f1W : SearchFilters := ⟨some "u", some 5, none⟩

/-- The same search filters with `minLikes` absent. -/
def f2W : SearchFilters := ⟨some "u", none, none⟩

/-! ### Helper lemmas -/

theorem length_filterMap_eq_countP {α β : Type} (f : α → Option β) :
    ∀ l : List α, (l.filterMap f).length = l.countP (fun a => (f a).isSome) := by
  intro l
  induction l with
  | nil => rfl
  | cons a l ih =>
    cases h : f a <;>
      simp [List.filterMap_cons, List.countP_cons, h, ih]

theorem reqVal_inv {α : Type} {x : RawVal α} {a : α} (h : reqVal x = some a) :
    x = .val a := by
  cases x <;> simp [reqVal] at h <;> simp [h]

theorem optVal_inv {α : Type} {x : RawVal α} {o : Option α} (h : optVal x = some o) :
    (x = .undef ∧ o = none) ∨ ∃ a, x = .val a ∧ o = some a := by
  cases x <;> simp [optVal] at h <;> simp [h]

theorem nullableVal_inv {α : Type} {x : RawVal α} {o : Option α}
    (h : nullableVal x = some o) :
    (x = .null ∧ o = none) ∨ ∃ a, x = .val a ∧ o = some a := by
  cases x <;> simp [nullableVal] at h <;> simp [h]

theorem handleMonitor_none_eq (ctx : PluginContext) (input : MonitorInput)
    (api : ApiRequest → ApiPayload) (now : Int) :
    handleMonitor ctx input none api now
      = handleMonitor ctx input (some defaultMonitorState) api now := rfl

theorem handleMonitor_historical_eq (ctx : PluginContext) (input : MonitorInput)
    (lt : Option Nat) (lc : Option Int) (api : ApiRequest → ApiPayload) (now : Int) :
    handleMonitor ctx input (some ⟨Phase.historical, lt, lc⟩) api now
      = (if (parseTopics ((api (monitorHistReq input (lt.getD 0) ctx.batchSize)).topic_list_topics.getD [])).length = 0 then
           { items := [], nextState := some ⟨Phase.realtime, none, some now⟩ }
         else
           { items := parseTopics ((api (monitorHistReq input (lt.getD 0) ctx.batchSize)).topic_list_topics.getD []),
             nextState := some ⟨Phase.historical,
               some (lt.getD 0 +
                 (parseTopics ((api (monitorHistReq input (lt.getD 0) ctx.batchSize)).topic_list_topics.getD [])).length),
               lc⟩ }) := by
  rcases lt with _ | n
  · simp [handleMonitor, monitorHistReq, Nat.zero_div]
  · by_cases hn : n = 0 <;> simp [handleMonitor, monitorHistReq, hn, Nat.zero_div]

theorem handleMonitor_realtime_eq (ctx : PluginContext) (input : MonitorInput)
    (lt : Option Nat) (lc : Option Int) (api : ApiRequest → ApiPayload) (now : Int) :
    handleMonitor ctx input (some ⟨Phase.realtime, lt, lc⟩) api now
      = { items := (parseTopics ((api (monitorRealtimeReq input ctx.batchSize)).topic_list_topics.getD [])).filter
            (fun t => lc.getD (now - ONE_HOUR_MS) < t.created_at),
          nextState := some ⟨Phase.realtime, none, some now⟩ } := by
  rcases lc with _ | w <;> simp [handleMonitor, monitorRealtimeReq]

theorem handleSearch_eq (ctx : PluginContext) (input : SearchInput)
    (ph : Phase) (lt : Option Nat) (api : ApiRequest → ApiPayload) :
    handleSearch ctx input (some ⟨ph, lt⟩) api
      = { topics := parseTopics ((api (searchReq input (lt.getD 0))).topics.getD []),
          posts := parsePosts ((api (searchReq input (lt.getD 0))).posts.getD []),
          nextState :=
            if 20 ≤ (parseTopics ((api (searchReq input (lt.getD 0))).topics.getD [])).length then
              some ⟨ph, some (lt.getD 0 +
                (parseTopics ((api (searchReq input (lt.getD 0))).topics.getD [])).length)⟩
            else none } := by
  rcases lt with _ | n
  · simp [handleSearch, searchReq, Nat.zero_div]
  · by_cases hn : n = 0 <;> simp [handleSearch, searchReq, hn, Nat.zero_div]

theorem handleSearch_none_eq (ctx : PluginContext) (input : SearchInput)
    (api : ApiRequest → ApiPayload) :
    handleSearch ctx input none api
      = handleSearch ctx input (some ⟨Phase.historical, none⟩) api := rfl

/-! ### Claim theorems -/

/-- C6: the list normalizers return exactly the normalizations of the
structurally valid elements (those the element parse accepts), in input
order, omitting each invalid element; they are total, and the output
length equals the number of valid elements. -/
theorem normalize_lists_filter_valid (ts : List RawTopic) (ps : List RawPost) :
    parseTopics ts = ts.filterMap parseTopic ∧
    parsePosts ps = ps.filterMap parsePostElem ∧
    (parseTopics ts).length = ts.countP (fun r => (parseTopic r).isSome) ∧
    (parsePosts ps).length = ps.countP (fun r => (parsePostElem r).isSome) := by
  have ht : parseTopics ts = ts.filterMap parseTopic := by
    simp [parseTopics, List.filterMap_map]
  have hp : parsePosts ps = ps.filterMap parsePostElem := by
    simp [parsePosts, List.filterMap_map]
  refine ⟨ht, hp, ?_, ?_⟩
  · rw [ht]; exact length_filterMap_eq_countP parseTopic ts
  · rw [hp]; exact length_filterMap_eq_countP parsePostElem ps

/-- C7: for a structurally valid raw topic, the normalized fields equal
the raw fields, with a missing `like_count` becoming `0` and missing
`tags` becoming `[]`; for a structurally valid raw post with `cooked`
absent, the normalized content is the raw `blurb` field; and an invalid
record yields an explicit no-value result (`none`) rather than raising. -/
theorem normalize_defaults (t : RawTopic) (p : RawPost)
    (T : DiscourseTopic) (P : DiscoursePost)
    (hT : parseTopic t = some T) (hP : parsePosts [p] = [P])
    (hc : p.cooked = .undef) :
    TopicFieldSpec t T ∧ PostCookedSpec p P ∧
    (∀ t2 : RawTopic, t2.id = .undef → parseTopic t2 = none) := by
  unfold TopicFieldSpec PostCookedSpec
  have hPe : parsePostElem p = some P := by
    cases hpe : parsePostElem p with
    | none => simp [parsePosts, hpe] at hP
    | some x =>
      simp [parsePosts, hpe] at hP
      exact congrArg some hP
  unfold parseTopic at hT
  split at hT
  case _ i ti sl pc vw lk ca lp ci tg hi hti hsl hpc hvw hlk hca hlp hci htg =>
    rw [Option.some.injEq] at hT
    subst hT
    unfold parsePostElem at hPe
    split at hPe
    case _ pi pti pu pck pca plk hpi hpti hpu hpck hpca hplk =>
      rw [Option.some.injEq] at hPe
      subst hPe
      rw [hc] at hpck
      refine ⟨⟨reqVal_inv hi, reqVal_inv hti, reqVal_inv hsl, reqVal_inv hpc,
        reqVal_inv hca, ?_, ?_, ?_, ?_, ?_, ?_, ?_, ?_, ?_, ?_⟩, ⟨?_, ?_⟩, ?_⟩
      · intro hv; rw [hv] at hvw; simp [optVal] at hvw; simp [hvw]
      · intro v hv; rw [hv] at hvw; simp [optVal] at hvw; simp [hvw]
      · intro hv; rw [hv] at hci; simp [optVal] at hci; simp [hci]
      · intro v hv; rw [hv] at hci; simp [optVal] at hci; simp [hci]
      · intro hv; rw [hv] at hlp; simp [nullableVal] at hlp; simp [hlp]
      · intro v hv; rw [hv] at hlp; simp [nullableVal] at hlp; simp [hlp]
      · intro hv; rw [hv] at hlk; simp [jsOrInt, reqVal] at hlk; simp [hlk]
      · intro n hv
        rw [hv] at hlk
        by_cases h0 : n = 0 <;> simp [jsOrInt, reqVal, h0] at hlk <;> simp [hlk, h0]
      · intro hv; rw [hv] at htg; simp [jsOrList, reqVal] at htg; simp [htg]
      · intro l hv; rw [hv] at htg; simp [jsOrList, reqVal] at htg; simp [htg]
      · intro s hv; rw [hv] at hpck; simp [jsOrStr, optVal] at hpck; simp [hpck]
      · intro hv; rw [hv] at hpck; simp [jsOrStr, optVal] at hpck; simp [hpck]
      · intro t2 h2
        unfold parseTopic
        split
        case _ hi2 _ _ _ _ _ _ _ _ _ =>
          rw [h2] at hi2
          simp [reqVal] at hi2
        case _ => rfl
    all_goals exact Option.noConfusion hPe
  all_goals exact Option.noConfusion hT

/-- Witness for C7 at a concrete valid topic and post. -/
theorem normalize_defaults_witness :
    parseTopic rawT7 = some topicT7 ∧ parsePosts [rawP7] = [postP7] ∧
    rawP7.cooked = RawVal.undef ∧
    (TopicFieldSpec rawT7 topicT7 ∧ PostCookedSpec rawP7 postP7 ∧
      (∀ t2 : RawTopic, t2.id = RawVal.undef → parseTopic t2 = none)) :=
  ⟨by decide, by decide, rfl,
   normalize_defaults rawT7 rawP7 topicT7 postP7 (by decide) (by decide) rfl⟩

/-- C8 counterexample: the schema puts no lower bound on the numeric
fields, so the normalizer accepts `rawNeg` and produces a topic with
negative post count and negative like count. -/
theorem topic_counts_nonneg_cex :
    parseTopic rawNeg = some topicNeg ∧
    topicNeg.posts_count < 0 ∧ topicNeg.like_count < 0 :=
  ⟨by decide, by decide, by decide⟩

/-- C8 (amended): every topic produced by the normalizer has post count
and like count equal to the raw values (like count `0` when absent), so
they are nonnegative whenever the raw values are nonnegative or absent;
the normalizer itself enforces no lower bound. -/
theorem topic_counts_nonneg_amended (t : RawTopic) (T : DiscourseTopic)
    (hT : parseTopic t = some T)
    (hpc : 0 ≤ rawIntOr0 t.posts_count) (hlk : 0 ≤ rawIntOr0 t.like_count) :
    0 ≤ T.posts_count ∧ 0 ≤ T.like_count := by
  unfold parseTopic at hT
  split at hT
  case _ i ti sl pc vw lk ca lp ci tg hi hti hsl hpc2 hvw hlk2 hca hlp hci htg =>
    rw [Option.some.injEq] at hT
    subst hT
    have h1 : t.posts_count = .val pc := reqVal_inv hpc2
    constructor
    · rw [h1] at hpc
      simpa [rawIntOr0] using hpc
    · cases hv : t.like_count with
      | undef => rw [hv] at hlk2; simp [jsOrInt, reqVal] at hlk2; simp [hlk2]
      | null => rw [hv] at hlk2; simp [jsOrInt, reqVal] at hlk2; simp [hlk2]
      | invalid => rw [hv] at hlk2; simp [jsOrInt, reqVal] at hlk2
      | val n =>
        rw [hv] at hlk hlk2
        simp [rawIntOr0] at hlk
        by_cases h0 : n = 0 <;> simp [jsOrInt, reqVal, h0] at hlk2 <;> simp [hlk2] <;> omega
  all_goals exact Option.noConfusion hT

/-- Witness for the amended C8 at a concrete accepted raw topic. -/
theorem topic_counts_nonneg_amended_witness :
    parseTopic rawT7 = some topicT7 ∧
    0 ≤ rawIntOr0 rawT7.posts_count ∧ 0 ≤ rawIntOr0 rawT7.like_count ∧
    (0 ≤ topicT7.posts_count ∧ 0 ≤ topicT7.like_count) :=
  ⟨by decide, by decide, by decide,
   topic_counts_nonneg_amended rawT7 topicT7 (by decide) (by decide) (by decide)⟩

theorem monitor_hist_core (ctx : PluginContext) (input : MonitorInput)
    (lt : Option Nat) (lc : Option Int) (api : ApiRequest → ApiPayload) (now : Int)
    (ts : List DiscourseTopic)
    (hts : ts = parseTopics
      ((api (monitorHistReq input (lt.getD 0) ctx.batchSize)).topic_list_topics.getD [])) :
    MonitorHistSpec ctx input (some ⟨Phase.historical, lt, lc⟩) api now ts := by
  subst hts
  unfold MonitorHistSpec
  refine ⟨?_, ?_, ?_⟩
  · simp only [handleMonitor_historical_eq, monitorProgress, Option.getD_some]
  · intro hne
    rw [handleMonitor_historical_eq,
      if_neg (by simpa [List.length_eq_zero] using hne)]
    simp [monitorProgress, monitorLastChecked]
  · intro he
    rw [handleMonitor_historical_eq, if_pos (by simp [he])]

/-- C1: monitor historical step: from a null or historical-phase state
with progress count `p`, the handler consults only the `/latest.json`
request at page `floor(p / batchSize)`; a nonempty normalized batch is
emitted exactly, keeping phase historical with progress `p + batch
length`; an empty batch emits nothing and moves to realtime with
`lastChecked` set to the current time. -/
theorem monitor_historical_step (ctx : PluginContext) (input : MonitorInput)
    (state : Option MonitorState) (api : ApiRequest → ApiPayload) (now : Int)
    (hb : 0 < ctx.batchSize)
    (hist : state = none ∨ ∃ st, state = some st ∧ st.phase = Phase.historical)
    (ts : List DiscourseTopic)
    (hts : ts = parseTopics
      ((api (monitorHistReq input (monitorProgress state) ctx.batchSize)).topic_list_topics.getD [])) :
    MonitorHistSpec ctx input state api now ts := by
  rcases hist with h | ⟨st, hst, hph⟩
  · subst h
    exact monitor_hist_core ctx input none none api now ts hts
  · obtain ⟨ph, lt, lc⟩ := st
    simp only at hph
    subst hph
    subst hst
    exact monitor_hist_core ctx input lt lc api now ts hts

/-- Witness for C1 at a concrete context, null state, and an oracle
returning one valid topic. -/
theorem monitor_historical_step_witness :
    0 < ctxW.batchSize ∧
    ((none : Option MonitorState) = none ∨
      ∃ st, (none : Option MonitorState) = some st ∧ st.phase = Phase.historical) ∧
    [topicT7] = parseTopics
      ((apiLatestW (monitorHistReq inputW (monitorProgress none) ctxW.batchSize)).topic_list_topics.getD []) ∧
    MonitorHistSpec ctxW inputW none apiLatestW 0 [topicT7] :=
  ⟨by decide, Or.inl rfl, by decide,
   monitor_historical_step ctxW inputW none apiLatestW 0 (by decide) (Or.inl rfl)
     [topicT7] (by decide)⟩

/-- C2: monitor realtime step: an item is emitted iff it was fetched and
its creation timestamp is strictly after the effective watermark (the
previous `lastChecked`, else now minus one hour); the next state is
always realtime with `lastChecked = now`; and the monitor never returns a
null next state. -/
theorem monitor_realtime_step (ctx : PluginContext) (input : MonitorInput)
    (st : MonitorState) (api : ApiRequest → ApiPayload) (now : Int)
    (hph : st.phase = Phase.realtime)
    (all : List DiscourseTopic)
    (hall : all = parseTopics
      ((api (monitorRealtimeReq input ctx.batchSize)).topic_list_topics.getD [])) :
    MonitorRTSpec ctx input st api now all := by
  obtain ⟨ph, lt, lc⟩ := st
  simp only at hph
  subst hph
  subst hall
  unfold MonitorRTSpec
  refine ⟨?_, ?_, ?_⟩
  · intro t
    rw [handleMonitor_realtime_eq]
    simp [List.mem_filter]
  · rw [handleMonitor_realtime_eq]
  · intro s
    rcases s with _ | ⟨ph2, lt2, lc2⟩
    · show ((handleMonitor ctx input (some ⟨Phase.historical, none, none⟩) api now).nextState).isSome = true
      rw [handleMonitor_historical_eq]
      split <;> rfl
    · cases ph2
      · rw [handleMonitor_historical_eq]
        split <;> rfl
      · rw [handleMonitor_realtime_eq]
        rfl

/-- Witness for C2 at a concrete realtime state and oracle. -/
theorem monitor_realtime_step_witness :
    stRTW.phase = Phase.realtime ∧
    [topicT7] = parseTopics
      ((apiLatestW (monitorRealtimeReq inputW ctxW.batchSize)).topic_list_topics.getD []) ∧
    MonitorRTSpec ctxW inputW stRTW apiLatestW 0 [topicT7] :=
  ⟨rfl, by decide,
   monitor_realtime_step ctxW inputW stRTW apiLatestW 0 rfl [topicT7] (by decide)⟩

theorem search_page_core (ctx : PluginContext) (input : SearchInput)
    (ph : Phase) (lt : Option Nat) (api : ApiRequest → ApiPayload)
    (ts : List DiscourseTopic)
    (hts : ts = parseTopics ((api (searchReq input (lt.getD 0))).topics.getD [])) :
    SearchPageSpec ctx input (some ⟨ph, lt⟩) api ts := by
  subst hts
  unfold SearchPageSpec
  refine ⟨?_, ?_, ?_, ?_, ?_⟩
  · simp only [handleSearch_eq, searchProgress, Option.getD_some]
  · intro b
    simp only [handleSearch_eq]
  · rw [handleSearch_eq]
  · rw [handleSearch_eq]
    split_ifs with h <;> simp <;> omega
  · intro h
    rw [handleSearch_eq, if_pos h]
    simp [searchPhase, searchProgress]

/-- C5: search pagination: the handler consults only the `/search.json`
request at page `floor(p / 20)` (a fixed divisor of 20, independent of
the context batch size); the topics output is the normalized batch; the
next state is null iff fewer than 20 topics were returned this call, and
otherwise carries progress `p +` the number of topics returned. -/
theorem search_pagination (ctx : PluginContext) (input : SearchInput)
    (state : Option SearchState) (api : ApiRequest → ApiPayload)
    (ts : List DiscourseTopic)
    (hts : ts = parseTopics
      ((api (searchReq input (searchProgress state))).topics.getD [])) :
    SearchPageSpec ctx input state api ts := by
  rcases state with _ | ⟨ph, lt⟩
  · exact search_page_core ctx input Phase.historical none api ts hts
  · exact search_page_core ctx input ph lt api ts hts

/-- Witness for C5 at a null state and an oracle returning one topic. -/
theorem search_pagination_witness :
    [topicT7] = parseTopics
      ((apiSearchW (searchReq ⟨"x", none⟩ (searchProgress none))).topics.getD []) ∧
    SearchPageSpec ctxW ⟨"x", none⟩ none apiSearchW [topicT7] :=
  ⟨by decide, search_pagination ctxW ⟨"x", none⟩ none apiSearchW [topicT7] (by decide)⟩

/-- C9: the `minLikes` search filter is inert: two filter records equal
except possibly at `minLikes` produce the same outgoing query string and
the same search output (topics, posts and next state) for every context,
state and oracle. -/
theorem search_minLikes_inert (ctx : PluginContext) (q0 : String)
    (f1 f2 : SearchFilters) (state : Option SearchState)
    (api : ApiRequest → ApiPayload)
    (hu : f1.username = f2.username) (ha : f1.after = f2.after) :
    buildSearchQuery ⟨q0, some f1⟩ = buildSearchQuery ⟨q0, some f2⟩ ∧
    handleSearch ctx ⟨q0, some f1⟩ state api = handleSearch ctx ⟨q0, some f2⟩ state api := by
  obtain ⟨u1, m1, a1⟩ := f1
  obtain ⟨u2, m2, a2⟩ := f2
  simp only at hu ha
  subst hu
  subst ha
  have hq : buildSearchQuery ⟨q0, some ⟨u1, m1, a1⟩⟩ = buildSearchQuery ⟨q0, some ⟨u1, m2, a1⟩⟩ := rfl
  have hreq : ∀ p, searchReq ⟨q0, some ⟨u1, m1, a1⟩⟩ p = searchReq ⟨q0, some ⟨u1, m2, a1⟩⟩ p := by
    intro p
    simp [searchReq, hq]
  refine ⟨hq, ?_⟩
  rcases state with _ | ⟨ph, lt⟩
  · rw [handleSearch_none_eq, handleSearch_none_eq, handleSearch_eq, handleSearch_eq, hreq]
  · rw [handleSearch_eq, handleSearch_eq, hreq]

/-- Witness for C9 at concrete filters differing only in `minLikes`. -/
theorem search_minLikes_inert_witness :
    f1W.username = f2W.username ∧ f1W.after = f2W.after ∧
    (buildSearchQuery ⟨"x", some f1W⟩ = buildSearchQuery ⟨"x", some f2W⟩ ∧
     handleSearch ctxW ⟨"x", some f1W⟩ none apiSearchW
       = handleSearch ctxW ⟨"x", some f2W⟩ none apiSearchW) :=
  ⟨rfl, rfl, search_minLikes_inert ctxW "x" f1W f2W none apiSearchW rfl rfl⟩

/-- C10: the monitor `tags` input is inert: two monitor inputs with the
same category but any two tag values produce identical monitor behavior
(same request consultation, same items, same next state) for every
context, state, oracle and time. -/
theorem monitor_tags_inert (ctx : PluginContext) (cat : Option String)
    (tags1 tags2 : Option (List String)) (state : Option MonitorState)
    (api : ApiRequest → ApiPayload) (now : Int) :
    handleMonitor ctx ⟨cat, tags1⟩ state api now
      = handleMonitor ctx ⟨cat, tags2⟩ state api now := rfl

/-- C3: a fetch whose every attempt is rate-limited (HTTP 429) makes
exactly 4 attempts (1 initial + 3 retries), sleeping 1s, 2s and 4s
between consecutive attempts, and then returns the neutral empty payload
instead of raising. -/
theorem retry_bound (oracle : Nat → AttemptResult)
    (h : ∀ i, ∃ body, oracle i = AttemptResult.httpResponse 429 body) :
    callAPI oracle
      = { attempts := 4, sleeps := [1000, 2000, 4000],
          result := Except.ok emptyPayload } := by
  obtain ⟨b0, h0⟩ := h 0
  obtain ⟨b1, h1⟩ := h 1
  obtain ⟨b2, h2⟩ := h 2
  obtain ⟨b3, h3⟩ := h 3
  simp [callAPI, callAPIFrom, h0, h1, h2, h3]

/-- Witness for C3 at the constant always-429 oracle. -/
theorem retry_bound_witness :
    (∀ i, ∃ body, oracle429W i = AttemptResult.httpResponse 429 body) ∧
    callAPI oracle429W
      = { attempts := 4, sleeps := [1000, 2000, 4000],
          result := Except.ok emptyPayload } :=
  ⟨fun _ => ⟨Except.error (), rfl⟩,
   retry_bound oracle429W (fun _ => ⟨Except.error (), rfl⟩)⟩

/-- C4: error taxonomy of the fetch layer: a non-2xx, non-429 response
degrades to the neutral empty payload without raising; a network-level
failure (the fetch promise rejecting, which includes the configured
timeout firing) propagates as a hard error; and a JSON-decode failure on
a 2xx response propagates as a hard error. -/
theorem fetch_error_taxonomy :
    (∀ (oracle : Nat → AttemptResult) (status : Nat) (body : Except Unit ApiPayload),
      oracle 0 = AttemptResult.httpResponse status body → status ≠ 429 →
      ¬(200 ≤ status ∧ status ≤ 299) →
      callAPI oracle = { attempts := 1, sleeps := [], result := Except.ok emptyPayload }) ∧
    (∀ oracle : Nat → AttemptResult, oracle 0 = AttemptResult.netError →
      callAPI oracle
        = { attempts := 1, sleeps := [], result := Except.error CallError.networkError }) ∧
    (∀ (oracle : Nat → AttemptResult) (status : Nat),
      oracle 0 = AttemptResult.httpResponse status (Except.error ()) →
      200 ≤ status → status ≤ 299 →
      callAPI oracle
        = { attempts := 1, sleeps := [], result := Except.error CallError.jsonDecodeError }) := by
  refine ⟨?_, ?_, ?_⟩
  · intro oracle status body h h429 h2xx
    simp [callAPI, callAPIFrom, h, h429, h2xx]
  · intro oracle h
    simp [callAPI, callAPIFrom, h]
  · intro oracle status h h1 h2
    have h429 : ¬status = 429 := by omega
    simp [callAPI, callAPIFrom, h, h429, h1, h2]

/-- Witness for C4 at concrete oracles for each of the three cases. -/
theorem fetch_error_taxonomy_witness :
    callAPI oracle500W = { attempts := 1, sleeps := [], result := Except.ok emptyPayload } ∧
    callAPI oracleNetW
      = { attempts := 1, sleeps := [], result := Except.error CallError.networkError } ∧
    callAPI oracleBadW
      = { attempts := 1, sleeps := [], result := Except.error CallError.jsonDecodeError } :=
  ⟨fetch_error_taxonomy.1 oracle500W 500 (Except.error ()) rfl (by decide) (by decide),
   fetch_error_taxonomy.2.1 oracleNetW rfl,
   fetch_error_taxonomy.2.2 oracleBadW 200 rfl (by decide) (by decide)⟩

end Discourse
